import Mathlib

/-!
Verification of the graph-transformation stage of the mindspore lite model
converter (`tools/converter/graphdef_transform.h`).  The repository fragment
exposes only the declaration surface of `GraphDefTransform` (its fields
`graphDefT`, `optimizer`, `mQuantizer`, `fbQuantizer` and its operations
`Transform`, `SetGraphDef`, `GetOutput`, `CreateQuantizer`); the
implementations of the optimizer, the quantizers and `Transform` itself are
not part of the fragment, so they are modelled here from the specification,
each such definition marked `Modelled from the spec`.
-/

namespace MSLite

/-- Quantization parameters attached to a tensor (schema `QuantParamT`):
scale, zero point, bit width (`numBits`). -/
structure QuantParamT where
  scale : Int
  zeroPoint : Int
  numBits : Nat
deriving DecidableEq, Repr

/-- Data type tag of a tensor: floating point, or a quantized integer type of
a given bit width. -/
inductive DataTypeT where
  | float32 : DataTypeT
  | quantized : Nat → DataTypeT
deriving DecidableEq, Repr

/-- Operator kind tag of a node: a plain operator, or its quantized variant
(the format-aware quantizer produces nodes whose kind already encodes
quantized semantics). -/
inductive OpKindT where
  | plain : Nat → OpKindT
  | quantizedOp : Nat → OpKindT
deriving DecidableEq, Repr

/-- One tensor/edge of the graph (schema `TensorT`): shape, data type,
optional embedded constant data, optional quantization parameters. -/
structure TensorT where
  dims : List Nat
  dataType : DataTypeT
  data : List Int
  quantParams : Option QuantParamT
deriving DecidableEq, Repr

/-- One operator node of the graph (schema `CNodeT`): operator kind tag,
ordered input tensor indices, ordered output tensor indices, and
operator-specific attributes. -/
structure CNodeT where
  primitiveKind : OpKindT
  inputIndex : List Nat
  outputIndex : List Nat
  attrs : List Int
deriving DecidableEq, Repr

/-- The in-memory graph (schema `MetaGraphT`): an ordered collection of nodes
and the tensor table; node edge references are indices into `allTensors`. -/
structure MetaGraphT where
  nodes : List CNodeT
  allTensors : List TensorT
deriving DecidableEq, Repr

/-- Every tensor index referenced as an input or output of any node resolves
to an existing entry of the graph's tensor table. -/
def refsResolve (g : MetaGraphT) : Bool :=
  g.nodes.all fun n =>
    (n.inputIndex ++ n.outputIndex).all fun t => t < g.allTensors.length

/-- Node `i` directly depends on node `j`: some input tensor of node `i` is
an output tensor of node `j`. -/
def nodeDepends (g : MetaGraphT) (i j : Nat) : Bool :=
  match g.nodes.get? i, g.nodes.get? j with
  | some ni, some nj => ni.inputIndex.any fun t => nj.outputIndex.contains t
  | _, _ => false

/-- Node `i` reaches node `j` through at most `m + 1` dependency steps. -/
def reachWithin (g : MetaGraphT) : Nat → Nat → Nat → Bool
  | 0, i, j => nodeDepends g i j
  | m + 1, i, j =>
      nodeDepends g i j ||
        (List.range g.nodes.length).any fun k =>
          nodeDepends g i k && reachWithin g m k j

/-- Some node lies on a dependency cycle. -/
def hasCycle (g : MetaGraphT) : Bool :=
  (List.range g.nodes.length).any fun i => reachWithin g g.nodes.length i i

/-- The graph's node dependency relation is acyclic. -/
def acyclic (g : MetaGraphT) : Bool := !hasCycle g

/-- Graph well-formedness: all edge references resolve and the graph is
acyclic. -/
def wellFormed (g : MetaGraphT) : Bool := refsResolve g && acyclic g

/-- Modelled from the spec: a `Pass` (the pass classes behind
`tools/converter/optimizer.h` are not in the fragment).  A pass declares a
matcher that scans the graph for a subgraph pattern and a rewrite action
applied when the matcher fires. -/
structure PassT where
  id : Nat
  matcher : MetaGraphT → Bool
  rewrite : MetaGraphT → MetaGraphT

/-- Applying a pass: if the matcher finds a match, the rewrite runs; a pass
that finds no match is a no-op. -/
def applyPass (p : PassT) (g : MetaGraphT) : MetaGraphT :=
  if p.matcher g then p.rewrite g else g

/-- Failure of an optimizer run: a pass produced an ill-formed graph
(`TransformError` with the offending pass identity), or the graph is
ill-formed at the optimizer stage exit. -/
inductive OptError where
  | transformError : Nat → OptError
  | illFormedAtExit : OptError
deriving DecidableEq, Repr

/-- Modelled from the spec: one optimizer step (the `Optimizer`
implementation is not in the fragment).  A pass whose matcher finds no match
succeeds trivially; a rewrite whose result violates well-formedness aborts
the run with `TransformError` naming the pass. -/
def optStep (p : PassT) (g : MetaGraphT) : Except OptError MetaGraphT :=
  if p.matcher g then
    let g' := p.rewrite g
    if wellFormed g' then Except.ok g' else Except.error (OptError.transformError p.id)
  else
    Except.ok g

/-- Modelled from the spec: the optimizer sweep, applying each registered
pass once, in registration order, aborting on the first failure. -/
def runPasses : List PassT → MetaGraphT → Except OptError MetaGraphT
  | [], g => Except.ok g
  | p :: ps, g =>
      match optStep p g with
      | Except.ok g' => runPasses ps g'
      | Except.error e => Except.error e

/-- Modelled from the spec: a full optimizer run — the sweep over the
registered passes followed by the well-formedness check at the stage exit. -/
def runOptimizer (ps : List PassT) (g : MetaGraphT) : Except OptError MetaGraphT :=
  match runPasses ps g with
  | Except.ok g' =>
      if wellFormed g' then Except.ok g' else Except.error OptError.illFormedAtExit
  | Except.error e => Except.error e

/-- Failure of a quantizer run. -/
inductive QuantError where
  | quantizationConflict : QuantError
  | unsupportedOperator : QuantError
deriving DecidableEq, Repr

/-- Quantizer configuration: the requested target bit width. -/
structure QuantConfig where
  bitWidth : Nat
deriving DecidableEq, Repr

/-- Modelled from the spec: scale derived deterministically from the
tensor's embedded constant data (the calibration statistics machinery is not
in the fragment). -/
def tensorScale (t : TensorT) : Int :=
  t.data.foldl (fun a x => max a x.natAbs) 0

/-- Modelled from the spec: quantization parameters computed for a
not-yet-quantized tensor under a given configuration. -/
def computeParams (cfg : QuantConfig) (t : TensorT) : QuantParamT :=
  { scale := tensorScale t, zeroPoint := 0, numBits := cfg.bitWidth }

/-- Modelled from the spec: tensor-level quantization (`quant::Quantizer` is
not in the fragment).  A tensor already carrying parameters of the requested
bit width is left unchanged; a mismatched bit width fails with
`QuantizationConflictError`; an unquantized tensor receives freshly computed
parameters and the quantized data type. -/
def quantizeTensor (cfg : QuantConfig) (t : TensorT) : Except QuantError TensorT :=
  match t.quantParams with
  | some qp =>
      if qp.numBits = cfg.bitWidth then Except.ok t
      else Except.error QuantError.quantizationConflict
  | none =>
      Except.ok { t with
        quantParams := some (computeParams cfg t),
        dataType := DataTypeT.quantized cfg.bitWidth }

/-- Modelled from the spec: a quantization request observed together with the
tensor it leaves behind — on failure the error is reported and the tensor is
returned with its existing parameters untouched (no silent overwrite). -/
def quantizeRequest (cfg : QuantConfig) (t : TensorT) :
    Option QuantError × TensorT :=
  match quantizeTensor cfg t with
  | Except.ok t' => (none, t')
  | Except.error e => (some e, t)

/-- Modelled from the spec: sequential quantization of a tensor table,
aborting on the first failing tensor. -/
def quantizeTensors (cfg : QuantConfig) :
    List TensorT → Except QuantError (List TensorT)
  | [] => Except.ok []
  | t :: ts =>
      match quantizeTensor cfg t with
      | Except.ok t' =>
          match quantizeTensors cfg ts with
          | Except.ok ts' => Except.ok (t' :: ts')
          | Except.error e => Except.error e
      | Except.error e => Except.error e

/-- Modelled from the spec: the calibration-based quantizer's graph pass —
it rewrites the tensor table with computed quantization parameters. -/
def quantizeGraph (cfg : QuantConfig) (g : MetaGraphT) :
    Except QuantError MetaGraphT :=
  match quantizeTensors cfg g.allTensors with
  | Except.ok ts => Except.ok { g with allTensors := ts }
  | Except.error e => Except.error e

/-- Marks a node's operator kind as encoding quantized semantics. -/
def quantizeKind : OpKindT → OpKindT
  | OpKindT.plain k => OpKindT.quantizedOp k
  | OpKindT.quantizedOp k => OpKindT.quantizedOp k

/-- Modelled from the spec: the format-aware quantizer (`quant::FbQuantizer`
is not in the fragment) — it quantizes the tensor table and produces nodes
whose operator kind already encodes quantized semantics. -/
def fbQuantizeGraph (cfg : QuantConfig) (g : MetaGraphT) :
    Except QuantError MetaGraphT :=
  match quantizeTensors cfg g.allTensors with
  | Except.ok ts =>
      Except.ok { g with
        allTensors := ts,
        nodes := g.nodes.map fun n => { n with primitiveKind := quantizeKind n.primitiveKind } }
  | Except.error e => Except.error e

/-- Requested quantization mode from the configuration
(`converter::Flags::quantType`). -/
inductive QuantType where
  | quantNone : QuantType
  | awareTraining : QuantType
  | postTraining : QuantType
  | weightQuant : QuantType
deriving DecidableEq, Repr

/-- The two quantizer variants. -/
inductive QuantVariant where
  | calibration : QuantVariant
  | formatAware : QuantVariant
deriving DecidableEq, Repr

/-- Modelled from the spec: which quantizer variant a quantization mode
selects (a configuration decision made once, at pipeline construction). -/
def selectVariant : QuantType → Option QuantVariant
  | QuantType.quantNone => none
  | QuantType.awareTraining => some QuantVariant.formatAware
  | QuantType.postTraining => some QuantVariant.calibration
  | QuantType.weightQuant => some QuantVariant.calibration

/-- The read-only configuration object (`converter::Flags`): quantization
mode, target bit width, and the enabled optimization passes. -/
structure Flags where
  quantType : QuantType
  bitWidth : Nat
  passes : List PassT

/-- The pipeline state machine's states. -/
inductive PState where
  | uninit : PState
  | graphBound : PState
  | optimized : PState
  | quantizedDone : PState
  | failed : PState
deriving DecidableEq, Repr

/-- The allowed transitions of the four-state pipeline machine
`Uninitialized -> GraphBound -> Optimized -> Quantized | Failed`. -/
def stepAllowed : PState → PState → Bool
  | PState.uninit, PState.graphBound => true
  | PState.graphBound, PState.optimized => true
  | PState.graphBound, PState.failed => true
  | PState.optimized, PState.quantizedDone => true
  | PState.optimized, PState.failed => true
  | _, _ => false

/-- The pipeline transition relation. -/
def PStep (s t : PState) : Prop := stepAllowed s t = true

instance : DecidableRel PStep := fun s t =>
  inferInstanceAs (Decidable (stepAllowed s t = true))

/-- Position of a state along the pipeline path. -/
def stateRank : PState → Nat
  | PState.uninit => 0
  | PState.graphBound => 1
  | PState.optimized => 2
  | PState.quantizedDone => 3
  | PState.failed => 3

/-- Error surfaced by a conversion run. -/
inductive ConverterError where
  | invalidGraphError : ConverterError
  | optFailed : OptError → ConverterError
  | quantFailed : QuantError → ConverterError
deriving DecidableEq, Repr

/-- Observable outcome of one `Transform` run: the result handed to the
caller, the final machine state, the sequence of machine states entered, and
which quantizer variants were invoked. -/
structure TransformResult where
  result : Except ConverterError MetaGraphT
  finalState : PState
  states : List PState
  quantInvocations : List QuantVariant

/-- The pipeline object (`GraphDefTransform`): the bound graph pointer
(`graphDefT`, null on construction) and the two optional quantizer members
(`mQuantizer`, `fbQuantizer`). -/
structure GraphDefTransform where
  graphDefT : Option MetaGraphT := none
  mQuantizer : Option QuantConfig := none
  fbQuantizer : Option QuantConfig := none

/-- A freshly constructed pipeline: `graphDefT = nullptr`, no quantizer. -/
def GraphDefTransform.new : GraphDefTransform := {}

/-- `SetGraphDef`: binds an externally supplied graph. -/
def GraphDefTransform.SetGraphDef (p : GraphDefTransform) (g : MetaGraphT) :
    GraphDefTransform :=
  { p with graphDefT := some g }

/-- `GetOutput`: returns the bound graph pointer unmodified
(`return graphDefT;`). -/
def GraphDefTransform.GetOutput (p : GraphDefTransform) : Option MetaGraphT :=
  p.graphDefT

/-- Modelled from the spec: `CreateQuantizer` (implementation not in the
fragment) — constructs the single quantizer variant selected by the
configuration's quantization mode, leaving the other member absent. -/
def GraphDefTransform.CreateQuantizer (p : GraphDefTransform) (flags : Flags) :
    GraphDefTransform :=
  match selectVariant flags.quantType with
  | none => p
  | some QuantVariant.calibration =>
      { p with mQuantizer := some { bitWidth := flags.bitWidth } }
  | some QuantVariant.formatAware =>
      { p with fbQuantizer := some { bitWidth := flags.bitWidth } }

/-- Modelled from the spec: `Transform` (implementation not in the fragment).
Binding fails with `InvalidGraphError` on a null or empty graph (the machine
never leaves `Uninitialized`); otherwise the optimizer runs the configured
passes; on success the constructed quantizer variant (if any) runs; every
stage failure is fatal and ends in `Failed`. -/
def GraphDefTransform.Transform (p : GraphDefTransform) (flags : Flags) :
    TransformResult :=
  match p.graphDefT with
  | none =>
      { result := Except.error ConverterError.invalidGraphError,
        finalState := PState.uninit,
        states := [PState.uninit],
        quantInvocations := [] }
  | some g =>
      if g.nodes.isEmpty then
        { result := Except.error ConverterError.invalidGraphError,
          finalState := PState.uninit,
          states := [PState.uninit],
          quantInvocations := [] }
      else
      match runOptimizer flags.passes g with
      | Except.error e =>
          { result := Except.error (ConverterError.optFailed e),
            finalState := PState.failed,
            states := [PState.uninit, PState.graphBound, PState.failed],
            quantInvocations := [] }
      | Except.ok g1 =>
          match p.mQuantizer with
          | some cfg =>
              match quantizeGraph cfg g1 with
              | Except.error qe =>
                  { result := Except.error (ConverterError.quantFailed qe),
                    finalState := PState.failed,
                    states := [PState.uninit, PState.graphBound, PState.optimized,
                      PState.failed],
                    quantInvocations := [QuantVariant.calibration] }
              | Except.ok g2 =>
                  { result := Except.ok g2,
                    finalState := PState.quantizedDone,
                    states := [PState.uninit, PState.graphBound, PState.optimized,
                      PState.quantizedDone],
                    quantInvocations := [QuantVariant.calibration] }
          | none =>
              match p.fbQuantizer with
              | some cfg =>
                  match fbQuantizeGraph cfg g1 with
                  | Except.error qe =>
                      { result := Except.error (ConverterError.quantFailed qe),
                        finalState := PState.failed,
                        states := [PState.uninit, PState.graphBound, PState.optimized,
                          PState.failed],
                        quantInvocations := [QuantVariant.formatAware] }
                  | Except.ok g2 =>
                      { result := Except.ok g2,
                        finalState := PState.quantizedDone,
                        states := [PState.uninit, PState.graphBound, PState.optimized,
                          PState.quantizedDone],
                        quantInvocations := [QuantVariant.formatAware] }
              | none =>
                  { result := Except.ok g1,
                    finalState := PState.quantizedDone,
                    states := [PState.uninit, PState.graphBound, PState.optimized,
                      PState.quantizedDone],
                    quantInvocations := [] }

/-- Modelled from the spec: the pipeline object after a run — only a
successful run replaces the exposed graph; a failed run does not surface the
(possibly partially mutated) graph as output. -/
def GraphDefTransform.afterRun (p : GraphDefTransform) (flags : Flags) :
    GraphDefTransform :=
  match (p.Transform flags).result with
  | Except.ok g' => { p with graphDefT := some g' }
  | Except.error _ => p

/-- Two graphs are structurally identical: same node list and same tensor
table. -/
def structurallyIdentical (g1 g2 : MetaGraphT) : Prop :=
  g1.nodes = g2.nodes ∧ g1.allTensors = g2.allTensors

instance : DecidableRel structurallyIdentical := fun g1 g2 => by
  unfold structurallyIdentical; infer_instance

/-! Concrete sample objects used by the witness theorems. -/

/-- A float tensor with no data. -/
def exTensor : TensorT :=
  { dims := [2], dataType := DataTypeT.float32, data := [], quantParams := none }

/-- A well-formed one-node sample graph: the node reads tensor 0 and writes
tensor 1. -/
def exGraph : MetaGraphT :=
  { nodes := [{ primitiveKind := OpKindT.plain 1, inputIndex := [0],
                outputIndex := [1], attrs := [] }],
    allTensors := [exTensor, exTensor] }

/-- An ill-formed graph: its node references tensor 5 but the tensor table is
empty. -/
def badGraph : MetaGraphT :=
  { nodes := [{ primitiveKind := OpKindT.plain 1, inputIndex := [5],
                outputIndex := [], attrs := [] }],
    allTensors := [] }

/-- A pass whose matcher never fires. -/
def noMatchPass : PassT :=
  { id := 3, matcher := fun _ => false, rewrite := fun _ => badGraph }

/-- A pass that always fires and rewrites to the ill-formed graph. -/
def badPass : PassT :=
  { id := 7, matcher := fun _ => true, rewrite := fun _ => badGraph }

/-- A tensor already quantized at 8 bits. -/
def exTensorQ8 : TensorT :=
  { dims := [2], dataType := DataTypeT.quantized 8, data := [1],
    quantParams := some { scale := 3, zeroPoint := 0, numBits := 8 } }

/-! Helper lemmas. -/

/-- A successful optimizer step yields exactly the pass application. -/
theorem optStep_ok_applyPass (p : PassT) (g g' : MetaGraphT)
    (h : optStep p g = Except.ok g') : g' = applyPass p g := by
  unfold optStep applyPass at *
  by_cases hm : p.matcher g
  · rw [if_pos hm] at h ⊢
    by_cases hw : wellFormed (p.rewrite g) = true
    · rw [if_pos hw] at h
      exact (Except.ok.injEq _ _ ▸ h).symm
    · rw [if_neg hw] at h
      cases h
  · rw [if_neg hm] at h ⊢
    exact (Except.ok.injEq _ _ ▸ h).symm

/-- A successful sweep is the left fold of the pass applications. -/
theorem runPasses_ok_foldl :
    ∀ (ps : List PassT) (g g' : MetaGraphT), runPasses ps g = Except.ok g' →
      g' = ps.foldl (fun h p => applyPass p h) g
  | [], g, g', h => by
      unfold runPasses at h
      exact (Except.ok.injEq _ _ ▸ h).symm
  | p :: ps, g, g', h => by
      unfold runPasses at h
      cases hs : optStep p g with
      | ok g1 =>
          rw [hs] at h
          have h1 := optStep_ok_applyPass p g g1 hs
          simpa [List.foldl, ← h1] using runPasses_ok_foldl ps g1 g' h
      | error e =>
          rw [hs] at h
          cases h

/-- C1: every Graph produced by a successful Optimizer run is well-formed:
it is acyclic and every tensor index referenced as an input or output of any
Node resolves to an entry of the Graph's tensor table. -/
theorem optimizer_success_wellFormed (ps : List PassT) (g g' : MetaGraphT)
    (h : runOptimizer ps g = Except.ok g') :
    acyclic g' = true ∧ refsResolve g' = true := by
  unfold runOptimizer at h
  cases hr : runPasses ps g with
  | ok g1 =>
      simp only [hr] at h
      by_cases hw : wellFormed g1 = true
      · rw [if_pos hw] at h
        have hg : g1 = g' := Except.ok.injEq _ _ ▸ h
        subst hg
        have hw' := hw
        unfold wellFormed at hw'
        exact ⟨(Bool.and_eq_true _ _ ▸ hw').2, (Bool.and_eq_true _ _ ▸ hw').1⟩
      · rw [if_neg hw] at h
        cases h
  | error e =>
      simp only [hr] at h
      cases h

/-- Witness for C1 at a concrete successful run. -/
theorem optimizer_success_wellFormed_witness :
    acyclic exGraph = true ∧ refsResolve exGraph = true :=
  optimizer_success_wellFormed [noMatchPass] exGraph exGraph (by rfl)

/-- C4: a successful Optimizer run applies each registered Pass exactly once,
in registration order, as a single left-to-right sweep: the output Graph is
the left fold of the pass applications over the registration list. -/
theorem optimizer_single_sweep (ps : List PassT) (g g' : MetaGraphT)
    (h : runOptimizer ps g = Except.ok g') :
    g' = ps.foldl (fun h p => applyPass p h) g := by
  unfold runOptimizer at h
  cases hr : runPasses ps g with
  | ok g1 =>
      simp only [hr] at h
      by_cases hw : wellFormed g1 = true
      · rw [if_pos hw] at h
        have hg : g1 = g' := Except.ok.injEq _ _ ▸ h
        exact hg ▸ runPasses_ok_foldl ps g g1 hr
      · rw [if_neg hw] at h
        cases h
  | error e =>
      simp only [hr] at h
      cases h

/-- Witness for C4 at a concrete successful run. -/
theorem optimizer_single_sweep_witness :
    exGraph = [noMatchPass].foldl (fun h p => applyPass p h) exGraph :=
  optimizer_single_sweep [noMatchPass] exGraph exGraph (by rfl)

/-- C5: a Pass whose matcher finds no match succeeds (it is not a failure)
and leaves the Graph byte-for-byte unchanged: the optimizer step returns
exactly the input Graph. -/
theorem pass_no_match_noop (p : PassT) (g : MetaGraphT)
    (h : p.matcher g = false) : optStep p g = Except.ok g := by
  unfold optStep
  rw [if_neg (by simp [h])]

/-- Witness for C5: the never-matching pass on the sample graph. -/
theorem pass_no_match_noop_witness :
    optStep noMatchPass exGraph = Except.ok exGraph :=
  pass_no_match_noop noMatchPass exGraph (by rfl)

/-- C9: the Optimizer is deterministic: on two structurally identical input
Graphs the same pass sequence yields identical results, and a failing run
reproduces the same failure. -/
theorem optimizer_deterministic (ps : List PassT) (g1 g2 : MetaGraphT)
    (h : structurallyIdentical g1 g2) :
    runOptimizer ps g1 = runOptimizer ps g2 ∧
      ∀ e, runOptimizer ps g1 = Except.error e →
        runOptimizer ps g2 = Except.error e := by
  have hg : g1 = g2 := by
    cases g1
    cases g2
    simp only [structurallyIdentical] at h
    simp [h.1, h.2]
  subst hg
  exact ⟨rfl, fun e he => he⟩

/-- Witness for C9 at a concrete pair of identical graphs. -/
theorem optimizer_deterministic_witness :
    runOptimizer [badPass] exGraph = runOptimizer [badPass] exGraph ∧
      ∀ e, runOptimizer [badPass] exGraph = Except.error e →
        runOptimizer [badPass] exGraph = Except.error e :=
  optimizer_deterministic [badPass] exGraph exGraph ⟨rfl, rfl⟩

/-- Sample configuration requesting no quantization, with no passes. -/
def flagsOk : Flags :=
  { quantType := QuantType.quantNone, bitWidth := 8, passes := [] }

/-- Sample configuration with a pass that produces an ill-formed graph. -/
def flagsBad : Flags :=
  { quantType := QuantType.quantNone, bitWidth := 8, passes := [badPass] }

/-- Sample configuration requesting post-training quantization. -/
def flagsPT : Flags :=
  { quantType := QuantType.postTraining, bitWidth := 8, passes := [] }

/-- Every allowed machine transition strictly advances the state's position
on the pipeline path. -/
theorem step_rank_lt : ∀ s t : PState, PStep s t → stateRank s < stateRank t := by
  intro s t
  cases s <;> cases t <;> decide

/-- Along a machine-respecting trace, every state after `s` sits strictly
further along the path. -/
theorem chain_mem_rank :
    ∀ (l : List PState) (s : PState), List.Chain' PStep (s :: l) →
      ∀ u ∈ l, stateRank s < stateRank u
  | [], _, _, u, hu => absurd hu (List.not_mem_nil u)
  | t :: l, s, h, u, hu => by
      rw [List.chain'_cons] at h
      have h1 := step_rank_lt s t h.1
      rcases List.mem_cons.mp hu with rfl | hu'
      · exact h1
      · exact h1.trans (chain_mem_rank l t h.2 u hu')

/-- A machine-respecting trace never repeats a state. -/
theorem chain_nodup : ∀ l : List PState, List.Chain' PStep l → l.Nodup
  | [], _ => List.nodup_nil
  | s :: l, h => by
      refine List.nodup_cons.mpr ⟨?_, chain_nodup l h.tail⟩
      intro hm
      exact absurd (chain_mem_rank l s h s hm) (lt_irrefl _)

/-- A machine-respecting trace starting at `s` is bounded by the remaining
path length. -/
theorem chain_length_le :
    ∀ (l : List PState) (s : PState), List.Chain' PStep (s :: l) →
      l.length + stateRank s < 4
  | [], s, _ => by cases s <;> simp [stateRank]
  | t :: l, s, h => by
      rw [List.chain'_cons] at h
      have h1 := step_rank_lt s t h.1
      have h2 := chain_length_le l t h.2
      simp only [List.length_cons]
      omega

/-- The state sequence of any run is one of the four path prefixes. -/
theorem transform_states_cases (p : GraphDefTransform) (flags : Flags) :
    (p.Transform flags).states = [PState.uninit] ∨
    (p.Transform flags).states =
      [PState.uninit, PState.graphBound, PState.failed] ∨
    (p.Transform flags).states =
      [PState.uninit, PState.graphBound, PState.optimized, PState.failed] ∨
    (p.Transform flags).states =
      [PState.uninit, PState.graphBound, PState.optimized, PState.quantizedDone] := by
  unfold GraphDefTransform.Transform
  split
  · exact Or.inl rfl
  · split
    · exact Or.inl rfl
    · split
      · exact Or.inr (Or.inl rfl)
      · split
        · split
          · exact Or.inr (Or.inr (Or.inl rfl))
          · exact Or.inr (Or.inr (Or.inr rfl))
        · split
          · split
            · exact Or.inr (Or.inr (Or.inl rfl))
            · exact Or.inr (Or.inr (Or.inr rfl))
          · exact Or.inr (Or.inr (Or.inr rfl))

/-- C2: the Transform Pipeline follows the four-state machine
`Uninitialized -> GraphBound -> Optimized -> Quantized | Failed`: the state
sequence of every run respects the machine's transitions, and every
machine-respecting trace never enters a state twice and has length at most
four (a single instance performs at most one run). -/
theorem pipeline_state_machine :
    (∀ (p : GraphDefTransform) (flags : Flags),
        List.Chain' PStep (p.Transform flags).states) ∧
    (∀ l : List PState, List.Chain' PStep l → l.Nodup ∧ l.length ≤ 4) := by
  constructor
  · intro p flags
    rcases transform_states_cases p flags with h | h | h | h <;> rw [h] <;>
      simp [List.chain'_cons, PStep, stepAllowed]
  · intro l hl
    refine ⟨chain_nodup l hl, ?_⟩
    cases l with
    | nil => simp
    | cons s l =>
        have := chain_length_le l s hl
        simp only [List.length_cons]
        omega

/-- Witness for C2 at a concrete machine-respecting trace. -/
theorem pipeline_state_machine_witness :
    [PState.uninit, PState.graphBound].Nodup ∧
      [PState.uninit, PState.graphBound].length ≤ 4 :=
  pipeline_state_machine.2 [PState.uninit, PState.graphBound]
    (by simp [List.chain'_cons, PStep, stepAllowed])

/-- C3: every error during a run is fatal: an Optimizer Pass failure, a
calibration Quantizer failure, and a format-aware Quantizer failure each
surface as the returned error with final state `Failed`; any error result of
a started run ends in `Failed`; and a Graph is surfaced as a successful
result only from the success terminal state. -/
theorem transform_error_fatal (p : GraphDefTransform) (flags : Flags)
    (g : MetaGraphT) (hg : p.graphDefT = some g)
    (hne : g.nodes.isEmpty = false) :
    (∀ e, runOptimizer flags.passes g = Except.error e →
        (p.Transform flags).result = Except.error (ConverterError.optFailed e) ∧
          (p.Transform flags).finalState = PState.failed) ∧
    (∀ g1 cfg qe, runOptimizer flags.passes g = Except.ok g1 →
        p.mQuantizer = some cfg → quantizeGraph cfg g1 = Except.error qe →
          (p.Transform flags).result =
              Except.error (ConverterError.quantFailed qe) ∧
            (p.Transform flags).finalState = PState.failed) ∧
    (∀ g1 cfg qe, runOptimizer flags.passes g = Except.ok g1 →
        p.mQuantizer = none → p.fbQuantizer = some cfg →
        fbQuantizeGraph cfg g1 = Except.error qe →
          (p.Transform flags).result =
              Except.error (ConverterError.quantFailed qe) ∧
            (p.Transform flags).finalState = PState.failed) ∧
    (∀ e, (p.Transform flags).result = Except.error e →
        (p.Transform flags).finalState = PState.failed) ∧
    (∀ g', (p.Transform flags).result = Except.ok g' →
        (p.Transform flags).finalState = PState.quantizedDone) := by
  cases hr : runOptimizer flags.passes g with
  | error e0 =>
      refine ⟨?_, ?_, ?_, ?_, ?_⟩
      · intro e he
        injection he with h1
        subst h1
        constructor <;> simp [GraphDefTransform.Transform, hg, hne, hr]
      · intro g1 cfg qe h1 h2 h3
        cases h1
      · intro g1 cfg qe h1 h2 h3 h4
        cases h1
      · intro e he
        simp [GraphDefTransform.Transform, hg, hne, hr]
      · intro g' hok
        simp [GraphDefTransform.Transform, hg, hne, hr] at hok
  | ok g1 =>
      cases hm : p.mQuantizer with
      | some cfg =>
          cases hq : quantizeGraph cfg g1 with
          | error qe =>
              refine ⟨?_, ?_, ?_, ?_, ?_⟩
              · intro e he
                cases he
              · intro g2 cfg2 qe2 h1 h2 h3
                injection h1 with h1
                subst h1
                injection h2 with h2
                subst h2
                rw [hq] at h3
                injection h3 with h3
                subst h3
                constructor <;>
                  simp [GraphDefTransform.Transform, hg, hne, hr, hm, hq]
              · intro g2 cfg2 qe2 h1 h2 h3 h4
                cases h2
              · intro e he
                simp [GraphDefTransform.Transform, hg, hne, hr, hm, hq]
              · intro g' hok
                simp [GraphDefTransform.Transform, hg, hne, hr, hm, hq] at hok
          | ok g2 =>
              refine ⟨?_, ?_, ?_, ?_, ?_⟩
              · intro e he
                cases he
              · intro g3 cfg2 qe2 h1 h2 h3
                injection h1 with h1
                subst h1
                injection h2 with h2
                subst h2
                rw [hq] at h3
                cases h3
              · intro g3 cfg2 qe2 h1 h2 h3 h4
                cases h2
              · intro e he
                simp [GraphDefTransform.Transform, hg, hne, hr, hm, hq] at he
              · intro g' hok
                simp [GraphDefTransform.Transform, hg, hne, hr, hm, hq]
      | none =>
          cases hf : p.fbQuantizer with
          | some cfg =>
              cases hq : fbQuantizeGraph cfg g1 with
              | error qe =>
                  refine ⟨?_, ?_, ?_, ?_, ?_⟩
                  · intro e he
                    cases he
                  · intro g2 cfg2 qe2 h1 h2 h3
                    cases h2
                  · intro g2 cfg2 qe2 h1 h2 h3 h4
                    injection h1 with h1
                    subst h1
                    injection h3 with h3
                    subst h3
                    rw [hq] at h4
                    injection h4 with h4
                    subst h4
                    constructor <;>
                      simp [GraphDefTransform.Transform, hg, hne, hr, hm, hf, hq]
                  · intro e he
                    simp [GraphDefTransform.Transform, hg, hne, hr, hm, hf, hq]
                  · intro g' hok
                    simp [GraphDefTransform.Transform, hg, hne, hr, hm, hf, hq]
                      at hok
              | ok g2 =>
                  refine ⟨?_, ?_, ?_, ?_, ?_⟩
                  · intro e he
                    cases he
                  · intro g3 cfg2 qe2 h1 h2 h3
                    cases h2
                  · intro g3 cfg2 qe2 h1 h2 h3 h4
                    injection h1 with h1
                    subst h1
                    injection h3 with h3
                    subst h3
                    rw [hq] at h4
                    cases h4
                  · intro e he
                    simp [GraphDefTransform.Transform, hg, hne, hr, hm, hf, hq]
                      at he
                  · intro g' hok
                    simp [GraphDefTransform.Transform, hg, hne, hr, hm, hf, hq]
          | none =>
              refine ⟨?_, ?_, ?_, ?_, ?_⟩
              · intro e he
                cases he
              · intro g2 cfg2 qe2 h1 h2 h3
                cases h2
              · intro g2 cfg2 qe2 h1 h2 h3 h4
                cases h3
              · intro e he
                simp [GraphDefTransform.Transform, hg, hne, hr, hm, hf] at he
              · intro g' hok
                simp [GraphDefTransform.Transform, hg, hne, hr, hm, hf]

/-- Witness for C3: the failing pass drives a concrete run into `Failed`. -/
theorem transform_error_fatal_witness :
    ((GraphDefTransform.new.SetGraphDef exGraph).Transform flagsBad).result =
        Except.error (ConverterError.optFailed (OptError.transformError 7)) ∧
      ((GraphDefTransform.new.SetGraphDef exGraph).Transform flagsBad).finalState =
        PState.failed :=
  (transform_error_fatal (GraphDefTransform.new.SetGraphDef exGraph) flagsBad
      exGraph rfl (by rfl)).1 (OptError.transformError 7) (by rfl)

/-- In any run, at most one quantizer invocation happens, and every invoked
variant corresponds to a constructed quantizer member (the calibration
member, or — failing that — the format-aware member). -/
theorem transform_invocations (p : GraphDefTransform) (flags : Flags) :
    (p.Transform flags).quantInvocations.length ≤ 1 ∧
      ∀ v ∈ (p.Transform flags).quantInvocations,
        (v = QuantVariant.calibration ∧ p.mQuantizer.isSome = true) ∨
          (v = QuantVariant.formatAware ∧ p.fbQuantizer.isSome = true ∧
            p.mQuantizer = none) := by
  cases hg : p.graphDefT with
  | none => simp [GraphDefTransform.Transform, hg]
  | some g =>
      cases hne : g.nodes.isEmpty with
      | true => simp [GraphDefTransform.Transform, hg, hne]
      | false =>
          cases hr : runOptimizer flags.passes g with
          | error e => simp [GraphDefTransform.Transform, hg, hne, hr]
          | ok g1 =>
              cases hm : p.mQuantizer with
              | some cfg =>
                  cases hq : quantizeGraph cfg g1 with
                  | error qe =>
                      simp [GraphDefTransform.Transform, hg, hne, hr, hm, hq]
                  | ok g2 =>
                      simp [GraphDefTransform.Transform, hg, hne, hr, hm, hq]
              | none =>
                  cases hf : p.fbQuantizer with
                  | some cfg =>
                      cases hq : fbQuantizeGraph cfg g1 with
                      | error qe =>
                          simp [GraphDefTransform.Transform, hg, hne, hr, hm, hf, hq]
                      | ok g2 =>
                          simp [GraphDefTransform.Transform, hg, hne, hr, hm, hf, hq]
                  | none =>
                      simp [GraphDefTransform.Transform, hg, hne, hr, hm, hf]

/-- C8: on a pipeline with no quantizer yet, `CreateQuantizer` constructs at
most one of the two quantizer variants, chosen from the configuration's
quantization mode; the subsequent run invokes at most one quantizer, and
every invoked variant is exactly the selected one (the unselected variant is
never invoked). -/
theorem quantizer_selected_once (flags : Flags) (p0 : GraphDefTransform)
    (hm : p0.mQuantizer = none) (hf : p0.fbQuantizer = none) :
    (¬(((p0.CreateQuantizer flags).mQuantizer.isSome = true) ∧
        ((p0.CreateQuantizer flags).fbQuantizer.isSome = true))) ∧
      ((p0.CreateQuantizer flags).Transform flags).quantInvocations.length ≤ 1 ∧
      ∀ v ∈ ((p0.CreateQuantizer flags).Transform flags).quantInvocations,
        selectVariant flags.quantType = some v := by
  obtain ⟨hlen, hmem⟩ := transform_invocations (p0.CreateQuantizer flags) flags
  cases hqt : flags.quantType
  case quantNone =>
      have hp : p0.CreateQuantizer flags = p0 := by
        simp [GraphDefTransform.CreateQuantizer, selectVariant, hqt]
      rw [hp] at hlen hmem ⊢
      refine ⟨by simp [hm, hf], hlen, ?_⟩
      intro v hv
      rcases hmem v hv with ⟨_, hc⟩ | ⟨_, hc, _⟩ <;> simp [hm, hf] at hc
  case awareTraining =>
      have hp : p0.CreateQuantizer flags =
          { p0 with fbQuantizer := some { bitWidth := flags.bitWidth } } := by
        simp [GraphDefTransform.CreateQuantizer, selectVariant, hqt]
      rw [hp] at hlen hmem ⊢
      refine ⟨by simp [hm], hlen, ?_⟩
      intro v hv
      rcases hmem v hv with ⟨_, hc⟩ | ⟨hv1, _, _⟩
      · simp [hm] at hc
      · simp [selectVariant, hv1]
  case postTraining =>
      have hp : p0.CreateQuantizer flags =
          { p0 with mQuantizer := some { bitWidth := flags.bitWidth } } := by
        simp [GraphDefTransform.CreateQuantizer, selectVariant, hqt]
      rw [hp] at hlen hmem ⊢
      refine ⟨by simp [hf], hlen, ?_⟩
      intro v hv
      rcases hmem v hv with ⟨hv1, _⟩ | ⟨_, hc, _⟩
      · simp [selectVariant, hv1]
      · simp [hf] at hc
  case weightQuant =>
      have hp : p0.CreateQuantizer flags =
          { p0 with mQuantizer := some { bitWidth := flags.bitWidth } } := by
        simp [GraphDefTransform.CreateQuantizer, selectVariant, hqt]
      rw [hp] at hlen hmem ⊢
      refine ⟨by simp [hf], hlen, ?_⟩
      intro v hv
      rcases hmem v hv with ⟨hv1, _⟩ | ⟨_, hc, _⟩
      · simp [selectVariant, hv1]
      · simp [hf] at hc

/-- Witness for C8: post-training mode on a fresh pipeline constructs only
the calibration quantizer. -/
theorem quantizer_selected_once_witness :
    ¬((((GraphDefTransform.new.SetGraphDef exGraph).CreateQuantizer
          flagsPT).mQuantizer.isSome = true) ∧
      (((GraphDefTransform.new.SetGraphDef exGraph).CreateQuantizer
          flagsPT).fbQuantizer.isSome = true)) :=
  (quantizer_selected_once flagsPT (GraphDefTransform.new.SetGraphDef exGraph)
      rfl rfl).1

/-- C10: `GetOutput` returns the bound graph pointer unmodified: on a fresh
pipeline it is the null pointer; after binding it is exactly the bound graph;
a failed run leaves the accessor's value unchanged; only a successful run
makes `GetOutput` expose the transformed graph. -/
theorem getOutput_contract :
    (GraphDefTransform.new.GetOutput = none) ∧
      (∀ (p : GraphDefTransform) (g : MetaGraphT),
        (p.SetGraphDef g).GetOutput = some g) ∧
      (∀ (p : GraphDefTransform) (flags : Flags) (e : ConverterError),
        (p.Transform flags).result = Except.error e →
          (p.afterRun flags).GetOutput = p.GetOutput) ∧
      (∀ (p : GraphDefTransform) (flags : Flags) (g' : MetaGraphT),
        (p.Transform flags).result = Except.ok g' →
          (p.afterRun flags).GetOutput = some g') := by
  refine ⟨rfl, fun p g => rfl, ?_, ?_⟩
  · intro p flags e he
    unfold GraphDefTransform.afterRun
    simp only [he]
  · intro p flags g' h
    unfold GraphDefTransform.afterRun
    simp only [h]
    rfl

/-- Witness for C10: a concrete successful run exposes the transformed
graph. -/
theorem getOutput_contract_witness :
    ((GraphDefTransform.new.SetGraphDef exGraph).afterRun flagsOk).GetOutput =
      some exGraph :=
  getOutput_contract.2.2.2 (GraphDefTransform.new.SetGraphDef exGraph) flagsOk
    exGraph (by rfl)

/-- C6: tensor-level quantization is idempotent: a Tensor already carrying
parameters of the requested bit width is returned unchanged, and a second
quantization with the same configuration reproduces the first result's
parameters exactly. -/
theorem quantize_idempotent :
    (∀ (cfg : QuantConfig) (t : TensorT) (qp : QuantParamT),
        t.quantParams = some qp → qp.numBits = cfg.bitWidth →
          quantizeTensor cfg t = Except.ok t) ∧
      (∀ (cfg : QuantConfig) (t t' : TensorT),
        quantizeTensor cfg t = Except.ok t' →
          quantizeTensor cfg t' = Except.ok t') := by
  constructor
  · intro cfg t qp hqp hbw
    unfold quantizeTensor
    simp only [hqp]
    rw [if_pos hbw]
  · intro cfg t t' h
    unfold quantizeTensor at h ⊢
    cases hqp : t.quantParams with
    | some qp =>
        simp only [hqp] at h
        by_cases hbw : qp.numBits = cfg.bitWidth
        · rw [if_pos hbw] at h
          injection h with h1
          subst h1
          simp only [hqp]
          rw [if_pos hbw]
        · rw [if_neg hbw] at h
          cases h
    | none =>
        simp only [hqp] at h
        injection h with h1
        subst h1
        simp [computeParams]

/-- Witness for C6: re-quantizing the already-8-bit tensor at 8 bits is the
identity. -/
theorem quantize_idempotent_witness :
    quantizeTensor { bitWidth := 8 } exTensorQ8 = Except.ok exTensorQ8 :=
  quantize_idempotent.1 { bitWidth := 8 } exTensorQ8
    { scale := 3, zeroPoint := 0, numBits := 8 } rfl rfl

/-- C7: a quantization request at a bit width different from the Tensor's
existing one fails with `QuantizationConflictError` and leaves the Tensor's
existing quantization parameters unchanged. -/
theorem quantize_conflict (cfg : QuantConfig) (t : TensorT) (qp : QuantParamT)
    (hqp : t.quantParams = some qp) (hbw : qp.numBits ≠ cfg.bitWidth) :
    quantizeRequest cfg t = (some QuantError.quantizationConflict, t) := by
  unfold quantizeRequest quantizeTensor
  simp only [hqp]
  rw [if_neg hbw]

/-- Witness for C7: requesting 4 bits on the 8-bit tensor conflicts and
leaves it untouched. -/
theorem quantize_conflict_witness :
    quantizeRequest { bitWidth := 4 } exTensorQ8 =
      (some QuantError.quantizationConflict, exTensorQ8) :=
  quantize_conflict { bitWidth := 4 } exTensorQ8
    { scale := 3, zeroPoint := 0, numBits := 8 } rfl (by decide)

end MSLite
